import Mathlib

/-!
A shallow embedding of the example notebooks of the earthengine-layers
repository: src/py/examples/Introduction.ipynb and the two notebooks
embedded in src/py/examples/power_plants.ipynb (the power-plants points
notebook and the international-boundaries polygon notebook).

The notebooks are straight-line glue code around two external libraries,
the earthengine client (ee) and pydeck (pdk). The embedding has three
parts:

1. a trace model of the service calls and widget operations each notebook
   performs, with the outcome of each fallible ee call (Initialize,
   Authenticate) given as a parameter, so that the try/except fallback of
   the power-plants notebooks can be analysed on every path;
2. an expression-tree model of the client-side earthengine objects built
   by the Introduction notebook (Radians, Hillshade), with a parametric
   evaluation function giving their server-side numeric meaning;
3. a feature model for the power-plants notebook: property dictionaries,
   the add_style function, the fuel color dictionaries and the two
   layer-building loops, plus records for the EarthEngineLayer and Deck
   constructor arguments.
-/

namespace EELayers

/-- Observable actions a notebook cell performs against the two external
libraries: an ee.Authenticate call, an ee.Initialize call, a plain data or
function definition cell, an EarthEngineLayer construction (labelled by
the id keyword passed in the source when present, by a descriptive label
otherwise), a pydeck Deck construction holding the labels of the layers
passed to it, and a Deck show call. -/
inductive Action where
  | auth
  | init
  | defData
  | mkLayer (id : String)
  | mkDeck (ids : List String)
  | showDeck (ids : List String)
  deriving DecidableEq, BEq

variable {ε : Type}

/-- Result of one call into the earthengine client: normal return, or a
raised exception of type ε. -/
inductive CallResult (ε : Type) where
  | ok
  | raise (e : ε)

/-- Semantics of the initialization cell shared by both notebooks embedded
in power_plants.ipynb:

try:
    ee.Initialize()
except Exception as e:
    ee.Authenticate()
    ee.Initialize()

The three arguments give the outcomes of the first Initialize call, of the
Authenticate call, and of the retried Initialize call, in that order.
The result is the list of service calls performed by the cell together
with the exception escaping it, if any. The except clause matches every
exception value identically; an exception raised inside the handler
(by Authenticate or by the retried Initialize) is not handled again. -/
def tryCellRun (i1 a i2 : CallResult ε) : List Action × Option ε :=
  match i1 with
  | CallResult.ok => ([Action.init], none)
  | CallResult.raise _ =>
    match a with
    | CallResult.raise ea => ([Action.init, Action.auth], some ea)
    | CallResult.ok =>
      match i2 with
      | CallResult.ok => ([Action.init, Action.auth, Action.init], none)
      | CallResult.raise e2 => ([Action.init, Action.auth, Action.init], some e2)

/-- Sequencing of a fallible cell with the remaining straight-line cells
of a notebook: if the cell escaped with an exception, execution of the
notebook stops there and no later cell runs. -/
def andThen (r : List Action × Option ε) (rest : List Action) : List Action × Option ε :=
  match r.2 with
  | some e => (r.1, some e)
  | none => (r.1 ++ rest, none)

/-- The fuels list of the power-plants notebook. -/
def fuels : List String :=
  ["Coal", "Oil", "Gas", "Hydro", "Nuclear", "Solar", "Waste",
   "Wind", "Geothermal", "Biomass"]

/-- Actions of the Introduction notebook cells after ee.Initialize, in
cell order: the SRTM image cell, the first EarthEngineLayer cell, the
first view-state and Deck cell ending in r.show, the hillshade
definition cell, and the final cell building and showing the hillshade
layer. -/
def introRest : List Action :=
  [Action.defData,
   Action.mkLayer "srtm_layer",
   Action.mkDeck ["srtm_layer"], Action.showDeck ["srtm_layer"],
   Action.defData,
   Action.mkLayer "hillshade_layer",
   Action.mkDeck ["hillshade_layer"], Action.showDeck ["hillshade_layer"]]

/-- Run of the Introduction notebook. Its authentication cells are a bare
ee.Authenticate() followed by a bare ee.Initialize(), with no handler:
either call raising stops the notebook. The arguments give the outcomes
of these two calls. -/
def introRun (a i : CallResult ε) : List Action × Option ε :=
  match a with
  | CallResult.raise e => ([Action.auth], some e)
  | CallResult.ok =>
    match i with
    | CallResult.raise e => ([Action.auth, Action.init], some e)
    | CallResult.ok => ([Action.auth, Action.init] ++ introRest, none)

/-- Actions of the power-plants points notebook cells after its guarded
initialization cell, in cell order: the table cell, the ee fuel_color
dictionary cell, the fuels list cell, the add_style definition cell, the
map cell, the raster layer loop (one EarthEngineLayer per fuel, id equal
to the fuel), the first Deck and show cell, the rgb fuel_color dictionary
cell, the vector layer loop (again one layer per fuel), and the second
Deck and show cell. -/
def pp1Rest : List Action :=
  [Action.defData, Action.defData, Action.defData, Action.defData, Action.defData]
    ++ fuels.map Action.mkLayer
    ++ [Action.mkDeck fuels, Action.showDeck fuels, Action.defData]
    ++ fuels.map Action.mkLayer
    ++ [Action.mkDeck fuels, Action.showDeck fuels]

/-- Run of the power-plants points notebook: the guarded initialization
cell followed by the remaining straight-line cells. -/
def pp1Run (i1 a i2 : CallResult ε) : List Action × Option ε :=
  andThen (tryCellRun i1 a i2) pp1Rest

/-- Actions of the international-boundaries notebook cells after its
guarded initialization cell, in cell order: the dataset cell, the styled
countries cell, the EarthEngineLayer cell, and the Deck and show cell. -/
def pp2Rest : List Action :=
  [Action.defData, Action.defData,
   Action.mkLayer "international_boundaries",
   Action.mkDeck ["international_boundaries"],
   Action.showDeck ["international_boundaries"]]

/-- Run of the international-boundaries notebook: the guarded
initialization cell followed by the remaining straight-line cells. -/
def pp2Run (i1 a i2 : CallResult ε) : List Action × Option ε :=
  andThen (tryCellRun i1 a i2) pp2Rest

/-- An action is an authentication step when it is one of the calls of the
cells the notebooks place under the heading Authenticate with Earth
Engine: the ee.Authenticate call and the credential-loading ee.Initialize
call. -/
def isAuthStep : Action → Bool
  | Action.auth => true
  | Action.init => true
  | _ => false

/-- An action is a layer construction. -/
def isMkLayer : Action → Bool
  | Action.mkLayer _ => true
  | _ => false

/-- A notebook trace demonstrates the full flow when it contains an
authentication step, constructs at least one EarthEngineLayer, and
contains a Deck construction that receives a constructed layer and whose
show call also appears in the trace. -/
def notebookDemoOK (t : List Action) : Bool :=
  t.any isAuthStep
    && t.any isMkLayer
    && t.any (fun a =>
        match a with
        | Action.mkDeck ids =>
            (ids.any fun x => t.contains (Action.mkLayer x)) && t.contains (Action.showDeck ids)
        | _ => false)

/-- Every action satisfying p occurs strictly before every action
satisfying q in the trace. -/
def beforeAll (p q : Action → Bool) (t : List Action) : Bool :=
  t.enum.all fun ia =>
    !(p ia.2) || (t.enum.all fun jb => !(q jb.2) || decide (ia.1 < jb.1))

/-- Every Deck construction only receives layers already constructed
earlier in the trace. -/
def layersBeforeDecks (t : List Action) : Bool :=
  t.enum.all fun ja =>
    match ja.2 with
    | Action.mkDeck ids => ids.all fun x => (t.take ja.1).contains (Action.mkLayer x)
    | _ => true

/-- Every show call is preceded by the construction of the Deck it shows. -/
def decksBeforeShows (t : List Action) : Bool :=
  t.enum.all fun ja =>
    match ja.2 with
    | Action.showDeck ids => (t.take ja.1).contains (Action.mkDeck ids)
    | _ => true

/-- The final action of the trace is a Deck show call. -/
def endsWithShow (t : List Action) : Bool :=
  match t.getLast? with
  | some (Action.showDeck _) => true
  | _ => false

/-- The ordering demanded of a notebook trace: authentication steps before
any layer construction, layers before the Decks they are passed to, Decks
before their show calls, and a show call as the final action. -/
def cellOrderOK (t : List Action) : Bool :=
  beforeAll isAuthStep isMkLayer t
    && layersBeforeDecks t
    && decksBeforeShows t
    && endsWithShow t

/-- Client-side earthengine raster expressions built by the Introduction
notebook. Constructors mirror the ee calls appearing in the source:
ee.Image on a dataset name, ee.Image on a number (a constant image),
the math.pi constant, toFloat, ee.Algorithms.Terrain, band select, the
arithmetic image methods add, subtract, multiply, divide, and the
trigonometric image methods sin and cos. -/
inductive Expr where
  | image (name : String)
  | constImage (q : ℚ)
  | num (q : ℚ)
  | pi
  | toFloat (e : Expr)
  | terrain (e : Expr)
  | select (e : Expr) (band : String)
  | add (a b : Expr)
  | sub (a b : Expr)
  | mul (a b : Expr)
  | div (a b : Expr)
  | sin (e : Expr)
  | cos (e : Expr)
  deriving DecidableEq

/-- The Radians function of the Introduction notebook:
return img.toFloat().multiply(math.pi).divide(180). -/
def Radians (img : Expr) : Expr :=
  Expr.div (Expr.mul (Expr.toFloat img) Expr.pi) (Expr.num 180)

/-- The Hillshade function of the Introduction notebook:
azimuth = Radians(ee.Image(az)); zenith = Radians(ee.Image(ze));
return azimuth.subtract(aspect).cos().multiply(slope.sin())
      .multiply(zenith.sin()).add(zenith.cos().multiply(slope.cos())). -/
def Hillshade (az ze : ℚ) (slope aspect : Expr) : Expr :=
  let azimuth := Radians (Expr.constImage az)
  let zenith := Radians (Expr.constImage ze)
  Expr.add
    (Expr.mul (Expr.mul (Expr.cos (Expr.sub azimuth aspect)) (Expr.sin slope))
      (Expr.sin zenith))
    (Expr.mul (Expr.cos zenith) (Expr.cos slope))

/-- The terrain object of the Introduction hillshade cell:
ee.Algorithms.Terrain(ee.Image(srtm90_v4)). -/
def terrainObj : Expr := Expr.terrain (Expr.image "srtm90_v4")

/-- slope_img = Radians(terrain.select(slope)). -/
def slope_img : Expr := Radians (Expr.select terrainObj "slope")

/-- aspect_img = Radians(terrain.select(aspect)). -/
def aspect_img : Expr := Radians (Expr.select terrainObj "aspect")

/-- The image of the SRTM elevation cell: ee.Image(CGIAR/SRTM90_V4). -/
def srtmImage : Expr := Expr.image "CGIAR/SRTM90_V4"

/-- The hillshade object passed to the final EarthEngineLayer of the
Introduction notebook: Hillshade(0, 60, slope_img, aspect_img). -/
def hillshadeObj : Expr := Hillshade 0 60 slope_img aspect_img

variable {R : Type}

/-- An interpretation of the opaque parts of the expression language over
a number type R: the value of the pi constant, the sine and cosine
functions, the per-pixel value of each named image, and the meaning of
the Terrain algorithm and of band selection. -/
structure Interp (R : Type) where
  piv : R
  sinf : R → R
  cosf : R → R
  imgv : String → R
  terrainv : R → R
  selectv : R → String → R

/-- Per-pixel evaluation of an expression under an interpretation. The
numeric literals and constant images denote their rational value, toFloat
is a numeric cast and denotes the identity, and the arithmetic and
trigonometric nodes denote the corresponding operations of R. -/
def Expr.eval [Field R] (I : Interp R) : Expr → R
  | Expr.image s => I.imgv s
  | Expr.constImage q => (q : R)
  | Expr.num q => (q : R)
  | Expr.pi => I.piv
  | Expr.toFloat e => Expr.eval I e
  | Expr.terrain e => I.terrainv (Expr.eval I e)
  | Expr.select e b => I.selectv (Expr.eval I e) b
  | Expr.add a b => Expr.eval I a + Expr.eval I b
  | Expr.sub a b => Expr.eval I a - Expr.eval I b
  | Expr.mul a b => Expr.eval I a * Expr.eval I b
  | Expr.div a b => Expr.eval I a / Expr.eval I b
  | Expr.sin e => I.sinf (Expr.eval I e)
  | Expr.cos e => I.cosf (Expr.eval I e)

/-- An expression is a literal configuration value when it is written
directly in the notebook without computation: a number, a constant
image, a named dataset image, or the pi constant. Every other node is
the result of a computation performed by notebook code. -/
def Expr.isLiteral : Expr → Bool
  | Expr.num _ => true
  | Expr.constImage _ => true
  | Expr.image _ => true
  | Expr.pi => true
  | _ => false

/-- Property values carried by a feature: numbers, strings, and nested
dictionaries such as the styleProperty dictionary built by add_style. -/
inductive Value where
  | num (q : ℚ)
  | str (s : String)
  | dict (entries : List (String × Value))

/-- Geometry of a feature of the power-plants table. The dataset holds
point geometries. -/
inductive Geometry where
  | point (lon lat : ℚ)
  deriving DecidableEq

/-- A feature: a geometry together with a property dictionary. -/
structure Feature where
  geometry : Geometry
  properties : List (String × Value)

/-- Reading a property, as done by point.get in add_style. -/
def Feature.get (f : Feature) (k : String) : Option Value :=
  List.lookup k f.properties

/-- Updating one key of a property dictionary: the first entry holding
the key is replaced, and a missing key is appended at the end. -/
def setProp (k : String) (v : Value) : List (String × Value) → List (String × Value)
  | [] => [(k, v)]
  | (k2, v2) :: rest =>
    if k2 = k then (k, v) :: rest else (k2, v2) :: setProp k v rest

/-- Writing a property, as done by point.set in add_style: the geometry
is untouched and exactly the named property is added or overwritten. -/
def Feature.set (f : Feature) (k : String) (v : Value) : Feature :=
  { geometry := f.geometry, properties := setProp k v f.properties }

/-- The ee.Dictionary fuel color palette of the power-plants notebook,
mapping a fuel name to a hex color string. -/
def fuel_color_ee : List (String × String) :=
  [("Coal", "000000"), ("Oil", "593704"), ("Gas", "BC80BD"),
   ("Hydro", "0565A6"), ("Nuclear", "E31A1C"), ("Solar", "FF7F00"),
   ("Waste", "6A3D9A"), ("Wind", "5CA2D1"), ("Geothermal", "FDBF6F"),
   ("Biomass", "229A00")]

/-- The python fuel color dictionary of the vector-rendering section,
mapping a fuel name to an rgb triple. -/
def fuel_color_rgb : List (String × List Nat) :=
  [("Coal", [0, 0, 0]), ("Oil", [89, 55, 4]), ("Gas", [188, 128, 189]),
   ("Hydro", [5, 101, 166]), ("Nuclear", [227, 26, 28]),
   ("Solar", [255, 127, 0]), ("Waste", [106, 61, 154]),
   ("Wind", [92, 162, 209]), ("Geothermal", [253, 191, 111]),
   ("Biomass", [34, 154, 0])]

/-- The style dictionary built inside add_style:
ee.Dictionary(with keys pointSize and color). -/
def styleDict (size color : Value) : Value :=
  Value.dict [("pointSize", size), ("color", color)]

/-- The add_style function of the power-plants notebook:

size = ee.Number(point.get(capacitymw)).sqrt().divide(10).add(2)
color = fuel_color.get(point.get(fuel1))
return point.set(styleProperty, ee.Dictionary(pointSize size, color color))

The square root is evaluated on the earthengine servers; it enters the
embedding as the parameter sqrtf. Server-side failures (a missing or
non-numeric capacitymw property, a missing fuel1 property, or a fuel
name absent from the ee fuel color dictionary) yield none. -/
def add_style (sqrtf : ℚ → ℚ) (point : Feature) : Option Feature :=
  match point.get "capacitymw", point.get "fuel1" with
  | some (Value.num c), some (Value.str fuel) =>
    match List.lookup fuel fuel_color_ee with
    | some col =>
      some (point.set "styleProperty"
        (styleDict (Value.num (sqrtf c / 10 + 2)) (Value.str col)))
    | none => none
  | _, _ => none

/-- Client-side feature collection expressions of the power-plants
notebooks: a named table, ee.FeatureCollection.map with a per-feature
function, a filter ee.Filter.eq(prop, value), and the style method with
its optional keyword arguments as used in the two notebooks. -/
inductive FC where
  | table (name : String)
  | fcmap (f : Feature → Option Feature) (fc : FC)
  | filterEq (prop : String) (value : Value) (fc : FC)
  | fcstyle (fc : FC) (styleProperty : Option String) (neighborhood : Option Nat)
      (fillColor : Option String) (color : Option String) (width : Option Nat)

/-- The earthengine object handed to an EarthEngineLayer: a raster image
expression or a feature collection expression. -/
inductive EEObj where
  | raster (e : Expr)
  | vector (fc : FC)

/-- The keyword arguments of the EarthEngineLayer constructor that the
notebooks use. A field is none when the corresponding keyword is not
passed at the construction site; get_fill_color is none as well when the
python dictionary lookup producing it would raise a KeyError. -/
structure EarthEngineLayer where
  eeObject : EEObj
  vis_params : Option (List (String × ℚ)) := none
  id : Option String := none
  opacity : Option ℚ := none
  getRadius : Option String := none
  lineWidthMinPixels : Option ℚ := none
  pointRadiusMinPixels : Option ℚ := none
  get_fill_color : Option (List Nat) := none
  selectors : Option (List String) := none
  as_vector : Option Bool := none

/-- The keyword arguments of pdk.ViewState used by the notebooks. -/
structure ViewState where
  latitude : ℚ
  longitude : ℚ
  zoom : ℚ
  bearing : Option ℚ := none
  pitch : Option ℚ := none

/-- The arguments of pdk.Deck used by the notebooks. -/
structure Deck where
  layers : List EarthEngineLayer
  initial_view_state : ViewState

/-- The power plants table: ee.FeatureCollection(WRI/GPPD/power_plants). -/
def ppTable : FC := FC.table "WRI/GPPD/power_plants"

/-- pp = ee.FeatureCollection(table).map(add_style). -/
def pp (sqrtf : ℚ → ℚ) : FC := FC.fcmap (add_style sqrtf) ppTable

/-- One layer of the raster loop of the power-plants notebook:
EarthEngineLayer(pp.filter(ee.Filter.eq(fuel1, fuel))
  .style(styleProperty styleProperty, neighborhood 50),
  id fuel, opacity 0.65). -/
def rasterLayer (sqrtf : ℚ → ℚ) (fuel : String) : EarthEngineLayer :=
  { eeObject := EEObj.vector
      (FC.fcstyle (FC.filterEq "fuel1" (Value.str fuel) (pp sqrtf))
        (some "styleProperty") (some 50) none none none),
    id := some fuel,
    opacity := some 0.65 }

/-- The raster loop: one layer per element of fuels. -/
def rasterLayers (sqrtf : ℚ → ℚ) : List EarthEngineLayer :=
  fuels.map (rasterLayer sqrtf)

/-- One layer of the vector loop of the power-plants notebook, with every
keyword of the source construction site. -/
def vectorLayer (fuel : String) : EarthEngineLayer :=
  { eeObject := EEObj.vector (FC.filterEq "fuel1" (Value.str fuel) ppTable),
    vis_params := some [],
    getRadius := some ".properties.capacitymw ** 1.35",
    lineWidthMinPixels := some 0.5,
    pointRadiusMinPixels := some 2,
    get_fill_color := List.lookup fuel fuel_color_rgb,
    selectors := some ["capacitymw"],
    as_vector := some true,
    id := some fuel,
    opacity := some 0.65 }

/-- The vector loop: one layer per element of fuels. -/
def vectorLayers : List EarthEngineLayer :=
  fuels.map vectorLayer

/-- The first EarthEngineLayer of the Introduction notebook:
EarthEngineLayer(image, vis_params with min 0 and max 255). -/
def introSrtmLayer : EarthEngineLayer :=
  { eeObject := EEObj.raster srtmImage,
    vis_params := some [("min", 0), ("max", 255)] }

/-- The hillshade EarthEngineLayer of the Introduction notebook:
EarthEngineLayer(ee_object) with no further keyword. -/
def introHillshadeLayer : EarthEngineLayer :=
  { eeObject := EEObj.raster hillshadeObj }

/-- The first view state of the Introduction notebook. -/
def introViewState1 : ViewState :=
  { latitude := 37.7749295, longitude := -122.4194155, zoom := 10,
    bearing := some 0, pitch := some 45 }

/-- The first Deck of the Introduction notebook. -/
def introDeck1 : Deck :=
  { layers := [introSrtmLayer], initial_view_state := introViewState1 }

/-- The second view state of the Introduction notebook. -/
def introViewState2 : ViewState :=
  { latitude := 36.0756, longitude := -111.9987, zoom := 7,
    bearing := some 0, pitch := some 30 }

/-- The second Deck of the Introduction notebook. -/
def introDeck2 : Deck :=
  { layers := [introHillshadeLayer], initial_view_state := introViewState2 }

/-- The view state used by both Decks of the power-plants notebook. -/
def ppViewState : ViewState :=
  { latitude := 36, longitude := -53, zoom := 3 }

/-- The raster Deck of the power-plants notebook. -/
def ppRasterDeck (sqrtf : ℚ → ℚ) : Deck :=
  { layers := rasterLayers sqrtf, initial_view_state := ppViewState }

/-- The vector Deck of the power-plants notebook. -/
def ppVectorDeck : Deck :=
  { layers := vectorLayers, initial_view_state := ppViewState }

/-- countries = dataset.style(fillColor b5ffb4, color 00909F, width 3)
in the international-boundaries notebook. -/
def countries : FC :=
  FC.fcstyle (FC.table "USDOS/LSIB_SIMPLE/2017") none none
    (some "b5ffb4") (some "00909F") (some 3)

/-- The layer of the international-boundaries notebook:
EarthEngineLayer(countries, id international_boundaries). -/
def boundaryLayer : EarthEngineLayer :=
  { eeObject := EEObj.vector countries,
    id := some "international_boundaries" }

/-- The view state of the international-boundaries notebook. -/
def boundaryViewState : ViewState :=
  { latitude := 36, longitude := 10, zoom := 3 }

/-- The Deck of the international-boundaries notebook. -/
def boundaryDeck : Deck :=
  { layers := [boundaryLayer], initial_view_state := boundaryViewState }

/-- A concrete power plant feature used as test input: a point with a
capacitymw of 100 and fuel1 Coal. -/
def samplePointA : Feature :=
  { geometry := Geometry.point 0 0,
    properties := [("capacitymw", Value.num 100), ("fuel1", Value.str "Coal")] }

/-- A second, separately written copy of the same concrete feature, used
to evaluate the notebook functions twice on equal inputs. -/
def samplePointB : Feature :=
  { geometry := Geometry.point 0 0,
    properties := [("capacitymw", Value.num 100), ("fuel1", Value.str "Coal")] }

/-- Looking up the key just written by setProp yields the written value. -/
lemma lookup_setProp_self (k : String) (v : Value) :
    ∀ l : List (String × Value), List.lookup k (setProp k v l) = some v := by
  intro l
  induction l with
  | nil => simp [setProp, List.lookup]
  | cons hd tl ih =>
    obtain ⟨k2, v2⟩ := hd
    by_cases h : k2 = k
    · simp [setProp, h, List.lookup]
    · simp only [setProp, if_neg h, List.lookup]
      have hne : (k == k2) = false := by
        simp [beq_eq_false_iff_ne]
        exact fun hk => h hk.symm
      simp [hne, ih]

/-- Looking up any other key is unchanged by setProp. -/
lemma lookup_setProp_ne (k k2 : String) (v : Value) (h : k2 ≠ k) :
    ∀ l : List (String × Value),
      List.lookup k2 (setProp k v l) = List.lookup k2 l := by
  intro l
  induction l with
  | nil =>
    have hne : (k2 == k) = false := by simp [beq_eq_false_iff_ne, h]
    simp [setProp, List.lookup, hne]
  | cons hd tl ih =>
    obtain ⟨k3, v3⟩ := hd
    by_cases hk : k3 = k
    · subst hk
      have hne : (k2 == k3) = false := by simp [beq_eq_false_iff_ne, h]
      simp [setProp, List.lookup, hne]
    · simp only [setProp, if_neg hk, List.lookup]
      by_cases hk2 : k2 = k3
      · simp [hk2]
      · have hne : (k2 == k3) = false := by simp [beq_eq_false_iff_ne, hk2]
        simp [hne, ih]

/-- C1: in the notebooks that install the fallback (both notebooks
embedded in power_plants.ipynb), if the first ee.Initialize call raises
an exception then ee.Authenticate is invoked and ee.Initialize is retried
exactly once, and if the first ee.Initialize succeeds then
ee.Authenticate is never invoked. Both notebook runs consist of this
guarded cell followed by their remaining cells. -/
theorem init_retry_once (ε : Type) (e : ε) (a i2 : CallResult ε) :
    (tryCellRun (CallResult.raise e) CallResult.ok i2).1
        = [Action.init, Action.auth, Action.init]
    ∧ (tryCellRun CallResult.ok a i2).1 = [Action.init]
    ∧ Action.auth ∉ (tryCellRun CallResult.ok a i2).1
    ∧ pp1Run (CallResult.raise e) CallResult.ok i2
        = andThen (tryCellRun (CallResult.raise e) CallResult.ok i2) pp1Rest
    ∧ pp2Run (CallResult.raise e) CallResult.ok i2
        = andThen (tryCellRun (CallResult.raise e) CallResult.ok i2) pp2Rest := by
  refine ⟨?_, rfl, ?_, rfl, rfl⟩
  · cases i2 <;> rfl
  · show Action.auth ∉ [Action.init]
    simp

/-- C2: the fallback discriminates no error categories and has a retry
budget of one. The except clause treats every caught exception value
identically; if the retried ee.Initialize raises, the exception escapes
the cell, the notebook run stops with exactly the calls Initialize,
Authenticate, Initialize, and no further authentication or retry occurs
in either power-plants notebook; the Introduction notebook has no
handler at all, so its failing ee.Initialize stops it immediately. -/
theorem broad_catch_single_retry (ε : Type) (e e2 e3 : ε) (a i2 : CallResult ε) :
    tryCellRun (CallResult.raise e) a i2 = tryCellRun (CallResult.raise e2) a i2
    ∧ tryCellRun (CallResult.raise e) CallResult.ok (CallResult.raise e3)
        = ([Action.init, Action.auth, Action.init], some e3)
    ∧ pp1Run (CallResult.raise e) CallResult.ok (CallResult.raise e3)
        = ([Action.init, Action.auth, Action.init], some e3)
    ∧ pp2Run (CallResult.raise e) CallResult.ok (CallResult.raise e3)
        = ([Action.init, Action.auth, Action.init], some e3)
    ∧ introRun CallResult.ok (CallResult.raise e3)
        = ([Action.auth, Action.init], (some e3 : Option ε)) := by
  refine ⟨?_, rfl, rfl, rfl, rfl⟩
  cases a <;> cases i2 <;> rfl

/-- C8: under every interpretation of pi, sine, cosine and the base
images over a field, the Hillshade function of the Introduction notebook
denotes exactly the reference formula of its own comment,
cos(az pi/180 - aspect) sin(slope) sin(ze pi/180)
+ cos(ze pi/180) cos(slope), and Radians denotes x pi/180. -/
theorem hillshade_formula (R : Type) [Field R] (I : Interp R) (az ze : ℚ)
    (slope aspect : Expr) :
    Expr.eval I (Hillshade az ze slope aspect)
      = I.cosf ((az : R) * I.piv / 180 - Expr.eval I aspect)
          * I.sinf (Expr.eval I slope) * I.sinf ((ze : R) * I.piv / 180)
        + I.cosf ((ze : R) * I.piv / 180) * I.cosf (Expr.eval I slope)
    ∧ (∀ x : Expr, Expr.eval I (Radians x) = Expr.eval I x * I.piv / 180) := by
  constructor
  · simp [Hillshade, Radians, Expr.eval, Rat.cast_ofNat]
  · intro x
    simp [Radians, Expr.eval, Rat.cast_ofNat]

/-- C3: on every run that completes without an escaping exception, each
of the three notebooks performs an authentication step against the
service, constructs at least one EarthEngineLayer, and passes a
constructed layer to a pydeck Deck whose show method is called. -/
theorem notebooks_auth_build_show (ε : Type) (ra ri p1 p2 p3 q1 q2 q3 : CallResult ε)
    (h1 : (introRun ra ri).2 = none)
    (h2 : (pp1Run p1 p2 p3).2 = none)
    (h3 : (pp2Run q1 q2 q3).2 = none) :
    notebookDemoOK (introRun ra ri).1 = true
    ∧ notebookDemoOK (pp1Run p1 p2 p3).1 = true
    ∧ notebookDemoOK (pp2Run q1 q2 q3).1 = true := by
  refine ⟨?_, ?_, ?_⟩
  · cases ra with
    | raise e => simp [introRun] at h1
    | ok =>
      cases ri with
      | raise e => simp [introRun] at h1
      | ok =>
        show notebookDemoOK ([Action.auth, Action.init] ++ introRest) = true
        decide
  · cases p1 with
    | ok =>
      show notebookDemoOK ([Action.init] ++ pp1Rest) = true
      decide
    | raise e =>
      cases p2 with
      | raise e2 => simp [pp1Run, tryCellRun, andThen] at h2
      | ok =>
        cases p3 with
        | raise e3 => simp [pp1Run, tryCellRun, andThen] at h2
        | ok =>
          show notebookDemoOK ([Action.init, Action.auth, Action.init] ++ pp1Rest) = true
          decide
  · cases q1 with
    | ok =>
      show notebookDemoOK ([Action.init] ++ pp2Rest) = true
      decide
    | raise e =>
      cases q2 with
      | raise e2 => simp [pp2Run, tryCellRun, andThen] at h3
      | ok =>
        cases q3 with
        | raise e3 => simp [pp2Run, tryCellRun, andThen] at h3
        | ok =>
          show notebookDemoOK ([Action.init, Action.auth, Action.init] ++ pp2Rest) = true
          decide

/-- Witness for the C3 theorem at the all-successful run. -/
theorem notebooks_auth_build_show_witness :
    notebookDemoOK (introRun (CallResult.ok : CallResult Unit) CallResult.ok).1 = true
    ∧ notebookDemoOK (pp1Run (CallResult.ok : CallResult Unit) CallResult.ok
        CallResult.ok).1 = true
    ∧ notebookDemoOK (pp2Run (CallResult.ok : CallResult Unit) CallResult.ok
        CallResult.ok).1 = true :=
  notebooks_auth_build_show Unit CallResult.ok CallResult.ok CallResult.ok
    CallResult.ok CallResult.ok CallResult.ok CallResult.ok CallResult.ok
    rfl rfl rfl

/-- C4: on every run that completes without an escaping exception, each
notebook trace respects the order: every authentication step comes
before every layer construction, every Deck receives only layers
constructed earlier, every show call follows the construction of its
Deck, and the final action is a show call. -/
theorem notebooks_cell_order (ε : Type) (ra ri p1 p2 p3 q1 q2 q3 : CallResult ε)
    (h1 : (introRun ra ri).2 = none)
    (h2 : (pp1Run p1 p2 p3).2 = none)
    (h3 : (pp2Run q1 q2 q3).2 = none) :
    cellOrderOK (introRun ra ri).1 = true
    ∧ cellOrderOK (pp1Run p1 p2 p3).1 = true
    ∧ cellOrderOK (pp2Run q1 q2 q3).1 = true := by
  refine ⟨?_, ?_, ?_⟩
  · cases ra with
    | raise e => simp [introRun] at h1
    | ok =>
      cases ri with
      | raise e => simp [introRun] at h1
      | ok =>
        show cellOrderOK ([Action.auth, Action.init] ++ introRest) = true
        decide
  · cases p1 with
    | ok =>
      show cellOrderOK ([Action.init] ++ pp1Rest) = true
      decide
    | raise e =>
      cases p2 with
      | raise e2 => simp [pp1Run, tryCellRun, andThen] at h2
      | ok =>
        cases p3 with
        | raise e3 => simp [pp1Run, tryCellRun, andThen] at h2
        | ok =>
          show cellOrderOK ([Action.init, Action.auth, Action.init] ++ pp1Rest) = true
          decide
  · cases q1 with
    | ok =>
      show cellOrderOK ([Action.init] ++ pp2Rest) = true
      decide
    | raise e =>
      cases q2 with
      | raise e2 => simp [pp2Run, tryCellRun, andThen] at h3
      | ok =>
        cases q3 with
        | raise e3 => simp [pp2Run, tryCellRun, andThen] at h3
        | ok =>
          show cellOrderOK ([Action.init, Action.auth, Action.init] ++ pp2Rest) = true
          decide

/-- Witness for the C4 theorem at the all-successful run. -/
theorem notebooks_cell_order_witness :
    cellOrderOK (introRun (CallResult.ok : CallResult Unit) CallResult.ok).1 = true
    ∧ cellOrderOK (pp1Run (CallResult.ok : CallResult Unit) CallResult.ok
        CallResult.ok).1 = true
    ∧ cellOrderOK (pp2Run (CallResult.ok : CallResult Unit) CallResult.ok
        CallResult.ok).1 = true :=
  notebooks_cell_order Unit CallResult.ok CallResult.ok CallResult.ok
    CallResult.ok CallResult.ok CallResult.ok CallResult.ok CallResult.ok
    rfl rfl rfl

/-- C5: the parameter dictionaries written in the notebooks reach the
third-party constructors unchanged: the vis_params dictionary of the
Introduction layer, the view-state values of every Deck, the rgb color
triples looked up for get_fill_color in the vector loop, and the empty
vis_params of the vector loop hold exactly the key-value pairs written
in the source, with no entry added, removed or transformed. -/
theorem params_forwarded_verbatim :
    introSrtmLayer.vis_params = some [("min", (0 : ℚ)), ("max", 255)]
    ∧ introDeck1.layers = [introSrtmLayer]
    ∧ introDeck1.initial_view_state =
        { latitude := 37.7749295, longitude := -122.4194155, zoom := 10,
          bearing := some 0, pitch := some 45 }
    ∧ introDeck2.initial_view_state =
        { latitude := 36.0756, longitude := -111.9987, zoom := 7,
          bearing := some 0, pitch := some 30 }
    ∧ fuels.map (fun f => (vectorLayer f).get_fill_color)
        = [some [0, 0, 0], some [89, 55, 4], some [188, 128, 189],
           some [5, 101, 166], some [227, 26, 28], some [255, 127, 0],
           some [106, 61, 154], some [92, 162, 209], some [253, 191, 111],
           some [34, 154, 0]]
    ∧ (vectorLayer "Coal").vis_params = some []
    ∧ ppVectorDeck.layers = vectorLayers
    ∧ ppVectorDeck.initial_view_state =
        { latitude := 36, longitude := -53, zoom := 3,
          bearing := none, pitch := none }
    ∧ boundaryDeck.layers = [boundaryLayer]
    ∧ boundaryDeck.initial_view_state =
        { latitude := 36, longitude := 10, zoom := 3,
          bearing := none, pitch := none } := by
  refine ⟨rfl, rfl, rfl, rfl, ?_, rfl, rfl, rfl, rfl, rfl⟩
  decide

/-- C6 counterexample: the claim that every invocation of the external
libraries passes only literal configuration values fails at the final
cell of the Introduction notebook, where the layer receives the output
of the notebook-defined Hillshade function, a computed expression and
not a literal. -/
theorem literal_invocations_counterexample :
    introHillshadeLayer.eeObject = EEObj.raster (Hillshade 0 60 slope_img aspect_img)
    ∧ Expr.isLiteral (Hillshade 0 60 slope_img aspect_img) = false :=
  ⟨rfl, rfl⟩

/-- C6 amended: the dictionaries and view states the notebooks pass are
literal, and the first Introduction layer receives a literal dataset
reference, but the notebooks also define functions (Radians, Hillshade)
whose computed, non-literal results are handed to the layer
constructor. -/
theorem literal_params_derived_objects :
    Expr.isLiteral srtmImage = true
    ∧ introSrtmLayer.eeObject = EEObj.raster srtmImage
    ∧ introSrtmLayer.vis_params = some [("min", (0 : ℚ)), ("max", 255)]
    ∧ introHillshadeLayer.eeObject = EEObj.raster hillshadeObj
    ∧ hillshadeObj = Hillshade 0 60 slope_img aspect_img
    ∧ Expr.isLiteral hillshadeObj = false
    ∧ Expr.isLiteral slope_img = false
    ∧ Expr.isLiteral aspect_img = false :=
  ⟨rfl, rfl, rfl, rfl, rfl, rfl, rfl, rfl⟩

/-- C7 counterexample: the claim that the repository holds no
deterministic, side-effect-free logic fails on its own candidate
functions: add_style evaluated twice on two separately written equal
inputs yields the same definite output, and the fuel color lookup has a
definite value, with no service call involved. -/
theorem no_pure_logic_counterexample :
    samplePointA = samplePointB
    ∧ add_style (fun x => x) samplePointA = add_style (fun x => x) samplePointB
    ∧ add_style (fun x => x) samplePointA
        = some { geometry := Geometry.point 0 0,
                 properties := [("capacitymw", Value.num 100),
                                ("fuel1", Value.str "Coal"),
                                ("styleProperty",
                                  Value.dict [("pointSize", Value.num 12),
                                              ("color", Value.str "000000")])] }
    ∧ List.lookup "Coal" fuel_color_ee = some "000000" := by
  have h12 : ((100 : ℚ) / 10 + 2) = 12 := by norm_num
  refine ⟨rfl, rfl, ?_, rfl⟩
  simp [add_style, samplePointA, Feature.get, Feature.set, setProp, styleDict,
    fuel_color_ee, List.lookup, h12]

/-- C7 amended: the notebooks do contain deterministic, side-effect-free
logic: add_style, Radians and Hillshade are functions of their inputs
alone, so two evaluations on equal inputs yield equal outputs, and the
fuel color lookup is a definite value; only the service-calling cells
are effectful. -/
theorem pure_helpers_deterministic (sqrtf : ℚ → ℚ) (p q : Feature) (hpq : p = q)
    (x y : Expr) (hxy : x = y) (az ze : ℚ) :
    add_style sqrtf p = add_style sqrtf q
    ∧ Radians x = Radians y
    ∧ Hillshade az ze x x = Hillshade az ze y y
    ∧ List.lookup "Coal" fuel_color_ee = some "000000" := by
  subst hpq
  subst hxy
  exact ⟨rfl, rfl, rfl, rfl⟩

/-- Witness for the C7 amended theorem on the two sample features. -/
theorem pure_helpers_deterministic_witness :
    add_style (fun x => x) samplePointA = add_style (fun x => x) samplePointB
    ∧ Radians (Expr.num 1) = Radians (Expr.num 1)
    ∧ Hillshade 0 60 (Expr.num 1) (Expr.num 1)
        = Hillshade 0 60 (Expr.num 1) (Expr.num 1)
    ∧ List.lookup "Coal" fuel_color_ee = some "000000" :=
  pure_helpers_deterministic (fun x => x) samplePointA samplePointB rfl
    (Expr.num 1) (Expr.num 1) rfl 0 60

/-- C9: on a feature with a numeric capacitymw, a fuel1 present in the
ee fuel color dictionary, add_style returns the same feature with
exactly the styleProperty property added or overwritten, holding the
pointSize sqrt(capacitymw)/10 + 2 and the color looked up by fuel1;
the geometry and every other property are unchanged, and for a
nonnegative capacity the point size is at least 2 and nondecreasing in
the capacity. The server square root enters as the parameter sqrtf,
assumed monotone and nonnegative on nonnegative inputs. -/
theorem add_style_frame_and_size (sqrtf : ℚ → ℚ)
    (hmono : Monotone sqrtf) (hpos : ∀ x : ℚ, 0 ≤ x → 0 ≤ sqrtf x)
    (p : Feature) (c c2 : ℚ) (fuel col : String)
    (hc : p.get "capacitymw" = some (Value.num c))
    (hf : p.get "fuel1" = some (Value.str fuel))
    (hcol : List.lookup fuel fuel_color_ee = some col)
    (hc0 : 0 ≤ c) (hcc : c ≤ c2) :
    add_style sqrtf p
      = some (p.set "styleProperty"
          (styleDict (Value.num (sqrtf c / 10 + 2)) (Value.str col)))
    ∧ (p.set "styleProperty"
        (styleDict (Value.num (sqrtf c / 10 + 2)) (Value.str col))).geometry
        = p.geometry
    ∧ (∀ k, k ≠ "styleProperty" →
        (p.set "styleProperty"
          (styleDict (Value.num (sqrtf c / 10 + 2)) (Value.str col))).get k
          = p.get k)
    ∧ (p.set "styleProperty"
        (styleDict (Value.num (sqrtf c / 10 + 2)) (Value.str col))).get
          "styleProperty"
        = some (styleDict (Value.num (sqrtf c / 10 + 2)) (Value.str col))
    ∧ 2 ≤ sqrtf c / 10 + 2
    ∧ sqrtf c / 10 + 2 ≤ sqrtf c2 / 10 + 2 := by
  refine ⟨?_, rfl, ?_, ?_, ?_, ?_⟩
  · simp [add_style, hc, hf, hcol]
  · intro k hk
    simp only [Feature.get, Feature.set]
    exact lookup_setProp_ne "styleProperty" k _ hk p.properties
  · simp only [Feature.get, Feature.set]
    exact lookup_setProp_self "styleProperty" _ p.properties
  · have h := hpos c hc0
    linarith
  · have h := hmono hcc
    linarith

/-- Witness for the C9 theorem on a concrete feature with capacity 100
and fuel Coal, with the identity as the monotone square root stand-in. -/
theorem add_style_frame_and_size_witness :
    add_style (fun x => x) samplePointA
      = some (samplePointA.set "styleProperty"
          (styleDict (Value.num ((100 : ℚ) / 10 + 2)) (Value.str "000000"))) :=
  (add_style_frame_and_size (fun x => x) monotone_id (fun x hx => hx)
    samplePointA 100 101 "Coal" "000000" rfl rfl rfl (by norm_num)
    (by norm_num)).1

/-- C10: every element of the fuels list is a key of both fuel color
dictionaries, so the corresponding lookups succeed, and each of the two
layer-building loops produces exactly one EarthEngineLayer per fuel, ten
in total, whose id equals that fuel name; in particular every vector
layer received a fill color. -/
theorem fuel_layers_complete (sqrtf : ℚ → ℚ) :
    fuels.length = 10
    ∧ (fuels.all fun f =>
        (List.lookup f fuel_color_ee).isSome
          && (List.lookup f fuel_color_rgb).isSome) = true
    ∧ (rasterLayers sqrtf).length = 10
    ∧ vectorLayers.length = 10
    ∧ (rasterLayers sqrtf).map EarthEngineLayer.id = fuels.map some
    ∧ vectorLayers.map EarthEngineLayer.id = fuels.map some
    ∧ (vectorLayers.all fun l => l.get_fill_color.isSome) = true := by
  refine ⟨rfl, by decide, ?_, ?_, rfl, rfl, by decide⟩
  · simp [rasterLayers, fuels]
  · simp [vectorLayers, fuels]

end EELayers
